import Mathlib

set_option maxHeartbeats 1000000

/-
Verification development for the qr-code-generator repository.

The repository is a client-side QR code web app.  The definitions below are a
shallow embedding of its source:

* src/src/hooks/useQRSettings.ts   — settings validators, defaults, setters,
  localStorage load/save, and (appended in the same file) the useQRHistory
  hook: MAX_HISTORY_ITEMS, addToHistory, history load/save.
* src/src/utils/qrGenerator.ts     — validateInput / generateQRCode.
* src/src/utils/index.ts           — isValidQRText.
* src/unnamed/part_004             — downloadQRCode / generateDefaultFilename.
* src/src/App.tsx                  — the debounced generation pipeline
  (useEffect with setTimeout/clearTimeout and promise resolution) and the
  history-recording effect with lastHistoryTextRef.

JavaScript strings are modelled as Lean String (code points), JS numbers as
Int (the Number.isFinite checks are always true in this model), JSON payloads
as an inductive Json value, and localStorage cells as a Stored value that can
be absent, unparsable text, or a parsed Json value.
-/

namespace QRCodeGen

/-- Whitespace characters removed by JavaScript String.prototype.trim
(space, tab, LF, CR, VT, FF, NBSP, BOM). -/
def isJsWhitespace (c : Char) : Bool :=
  c == ' ' || c == '\t' || c == '\n' || c == '\r' ||
  c.toNat == 11 || c.toNat == 12 || c.toNat == 160 || c.toNat == 65279

/-- Model of JavaScript String.prototype.trim: drop leading and trailing
whitespace. -/
def jsTrim (s : String) : String :=
  ⟨((s.data.dropWhile isJsWhitespace).reverse.dropWhile isJsWhitespace).reverse⟩

/-- Decides whether the first list is a prefix of the second
(model of JavaScript String.prototype.startsWith, on char lists). -/
def startsWithChars : List Char → List Char → Bool
  | [], _ => true
  | _ :: _, [] => false
  | p :: ps, s :: ss => p == s && startsWithChars ps ss

/-- Model of JavaScript dataUrl.startsWith(pat). -/
def strStartsWith (s pat : String) : Bool :=
  startsWithChars pat.data s.data

/-- Decimal digit test for characters. -/
def isDigitChar (c : Char) : Bool :=
  '0' ≤ c && c ≤ '9'

/-- Hex digit test, as used by the color regular expression. -/
def isHexDigit (c : Char) : Bool :=
  ('0' ≤ c && c ≤ '9') || ('a' ≤ c && c ≤ 'f') || ('A' ≤ c && c ≤ 'F')

/-- Embeds isValidHexColor from src/src/hooks/useQRSettings.ts (and the
identical helper in src/src/utils/index.ts): the string must match
the pattern hash followed by exactly 6 or exactly 3 hex digits. -/
def isValidHexColor (color : String) : Bool :=
  match color.data with
  | '#' :: rest => ((rest.length == 6) || (rest.length == 3)) && rest.all isHexDigit
  | _ => false

/-- Embeds isValidSize from src/src/hooks/useQRSettings.ts: size must be
between 64 and 1024 (the Number.isFinite check is vacuous on Int). -/
def isValidSize (size : Int) : Bool :=
  decide (64 ≤ size ∧ size ≤ 1024)

/-- Embeds isValidMargin from src/src/hooks/useQRSettings.ts: margin must be
between 0 and 10. -/
def isValidMargin (margin : Int) : Bool :=
  decide (0 ≤ margin ∧ margin ≤ 10)

/-- Embeds isValidQRText from src/src/utils/index.ts: trimmed length positive
and untrimmed length at most 4096. -/
def isValidQRText (text : String) : Bool :=
  decide (0 < (jsTrim text).length) && decide (text.length ≤ 4096)

/-- The QRSettings record of src/src/hooks/useQRSettings.ts. -/
structure QRSettings where
  foregroundColor : String
  backgroundColor : String
  qrSize : Int
  margin : Int
deriving Repr, DecidableEq

/-- DEFAULT_SETTINGS from src/src/hooks/useQRSettings.ts. -/
def DEFAULT_SETTINGS : QRSettings :=
  { foregroundColor := "#22d3ee", backgroundColor := "#18181b", qrSize := 256, margin := 2 }

/-- Embeds setForegroundColor: apply only when the hex validator accepts. -/
def setForegroundColor (color : String) (s : QRSettings) : QRSettings :=
  if isValidHexColor color then { s with foregroundColor := color } else s

/-- Embeds setBackgroundColor: apply only when the hex validator accepts. -/
def setBackgroundColor (color : String) (s : QRSettings) : QRSettings :=
  if isValidHexColor color then { s with backgroundColor := color } else s

/-- Embeds setQrSize: apply only when isValidSize accepts. -/
def setQrSize (size : Int) (s : QRSettings) : QRSettings :=
  if isValidSize size then { s with qrSize := size } else s

/-- Embeds setMargin: apply only when isValidMargin accepts. -/
def setMargin (margin : Int) (s : QRSettings) : QRSettings :=
  if isValidMargin margin then { s with margin := margin } else s

/-- Abstract JSON values (numbers restricted to the integers the app stores). -/
inductive Json where
  | null : Json
  | bool (b : Bool) : Json
  | num (n : Int) : Json
  | str (s : String) : Json
  | arr (xs : List Json) : Json
  | obj (fields : List (String × Json)) : Json
deriving Repr

/-- Contents of one localStorage key: absent, present but not valid JSON,
or present and parsed to a Json value. -/
inductive Stored where
  | absent : Stored
  | corrupt : Stored
  | json (j : Json) : Stored
deriving Repr

/-- JavaScript property access on a parsed JSON value: an own field of an
object, and undefined (none) on everything else. -/
def Json.getField (j : Json) (key : String) : Option Json :=
  match j with
  | .obj fields => fields.lookup key
  | _ => none

/-- Embeds loadSettingsFromStorage from src/src/hooks/useQRSettings.ts.
Absent key, parse failure, a non-object payload, a missing or wrongly typed
field, or a field rejected by its validator all yield none. -/
def loadSettingsFromStorage (st : Stored) : Option QRSettings :=
  match st with
  | .absent => none
  | .corrupt => none
  | .json j =>
    match j.getField ("foregroundColor"), j.getField ("backgroundColor"),
          j.getField ("qrSize"), j.getField ("margin") with
    | some (.str fg), some (.str bg), some (.num size), some (.num mar) =>
      if isValidHexColor fg && isValidHexColor bg && isValidSize size && isValidMargin mar then
        some { foregroundColor := fg, backgroundColor := bg, qrSize := size, margin := mar }
      else
        none
    | _, _, _, _ => none

/-- JSON.stringify image of a QRSettings record. -/
def settingsToJson (s : QRSettings) : Json :=
  .obj [("foregroundColor", .str s.foregroundColor),
        ("backgroundColor", .str s.backgroundColor),
        ("qrSize", .num s.qrSize),
        ("margin", .num s.margin)]

/-- Embeds saveSettingsToStorage: writes the serialized record
(write failures are swallowed by the code and leave the old cell; the
successful write is modelled). -/
def saveSettingsToStorage (s : QRSettings) : Stored :=
  .json (settingsToJson s)

/-- The record-level validator the settings store applies on load. -/
def isValidSettings (s : QRSettings) : Bool :=
  isValidHexColor s.foregroundColor && isValidHexColor s.backgroundColor &&
  isValidSize s.qrSize && isValidMargin s.margin

/-- Initialization of useQRSettings: the loaded record if valid, else
DEFAULT_SETTINGS (the stored ?? DEFAULT_SETTINGS initializer). -/
def initSettings (st : Stored) : QRSettings :=
  (loadSettingsFromStorage st).getD DEFAULT_SETTINGS

/-- MAX_HISTORY_ITEMS as defined by the useQRHistory hook (the constant in
the source is 10, although the hook's own test expects it to be 5). -/
def MAX_HISTORY_ITEMS : Nat := 10

/-- One history entry (QRHistoryItem in the useQRHistory hook). -/
structure QRHistoryItem where
  id : String
  text : String
  foregroundColor : String
  backgroundColor : String
  size : Int
  margin : Int
  timestamp : String
deriving Repr, DecidableEq

/-- The argument of addToHistory: an item without id and timestamp. -/
structure QRHistoryInput where
  text : String
  foregroundColor : String
  backgroundColor : String
  size : Int
  margin : Int
deriving Repr, DecidableEq

/-- Embeds addToHistory from the useQRHistory hook: build the new item with a
fresh id and timestamp (passed in here, since the code draws them from
Date.now and Math.random), prepend it, and keep the first MAX_HISTORY_ITEMS
entries (the slice(0, MAX_HISTORY_ITEMS) call). -/
def addToHistory (input : QRHistoryInput) (freshId freshTs : String)
    (prev : List QRHistoryItem) : List QRHistoryItem :=
  ({ id := freshId, text := input.text, foregroundColor := input.foregroundColor,
     backgroundColor := input.backgroundColor, size := input.size,
     margin := input.margin, timestamp := freshTs } :: prev).take MAX_HISTORY_ITEMS

/-- The per-item filter predicate of loadHistoryFromStorage, returning the
item it accepts: all seven fields present with the right primitive types. -/
def historyItemOfJson (j : Json) : Option QRHistoryItem :=
  match j.getField ("id"), j.getField ("text"), j.getField ("foregroundColor"),
        j.getField ("backgroundColor"), j.getField ("size"), j.getField ("margin"),
        j.getField ("timestamp") with
  | some (.str i), some (.str t), some (.str fg), some (.str bg),
    some (.num size), some (.num mar), some (.str ts) =>
    some { id := i, text := t, foregroundColor := fg, backgroundColor := bg,
           size := size, margin := mar, timestamp := ts }
  | _, _, _, _, _, _, _ => none

/-- Embeds loadHistoryFromStorage from the useQRHistory hook: absent key,
parse failure or a non-array payload yield the empty list; otherwise invalid
elements are filtered out and the result is truncated to MAX_HISTORY_ITEMS. -/
def loadHistoryFromStorage (st : Stored) : List QRHistoryItem :=
  match st with
  | .absent => []
  | .corrupt => []
  | .json (.arr xs) => (xs.filterMap historyItemOfJson).take MAX_HISTORY_ITEMS
  | .json _ => []

/-- JSON.stringify image of one history item. -/
def historyItemToJson (it : QRHistoryItem) : Json :=
  .obj [("id", .str it.id), ("text", .str it.text),
        ("foregroundColor", .str it.foregroundColor),
        ("backgroundColor", .str it.backgroundColor),
        ("size", .num it.size), ("margin", .num it.margin),
        ("timestamp", .str it.timestamp)]

/-- Embeds saveHistoryToStorage: writes the serialized array. -/
def saveHistoryToStorage (h : List QRHistoryItem) : Stored :=
  .json (.arr (h.map historyItemToJson))

/-- Error correction levels accepted by the generator. -/
inductive ECLevel where
  | L : ECLevel
  | M : ECLevel
  | Q : ECLevel
  | H : ECLevel
deriving Repr, DecidableEq

/-- QRCodeOptions from src/src/types/index.ts. -/
structure QRCodeOptions where
  text : String
  foregroundColor : String
  backgroundColor : String
  size : Int
  errorCorrectionLevel : ECLevel
  margin : Int
deriving Repr, DecidableEq

/-- QRCodeResult from src/src/types/index.ts. -/
structure QRCodeResult where
  dataUrl : String
  width : Int
  height : Int
deriving Repr, DecidableEq

/-- QRGenerationError from src/src/utils/qrGenerator.ts, reduced to its
observable message (the originalCause field is not needed by any claim). -/
structure QRGenerationError where
  message : String
deriving Repr, DecidableEq

/-- The message built by validateInput for over-long text. -/
def lengthExceededMessage (text : String) : String :=
  "Text exceeds maximum length of 4096 characters (got " ++ toString text.length ++ ")."

/-- The message built by validateInput for empty or whitespace-only text. -/
def emptyTextMessage : String :=
  "Text input is required and cannot be empty."

/-- Embeds validateInput from src/src/utils/qrGenerator.ts: first the
falsy/trimmed-empty check, then the length bound. -/
def validateInput (text : String) : Except QRGenerationError Unit :=
  if text = "" ∨ (jsTrim text).length = 0 then
    .error { message := emptyTextMessage }
  else if 4096 < text.length then
    .error { message := lengthExceededMessage text }
  else
    .ok ()

/-- Possible outcomes of the external QRCode.toDataURL call, which the
pipeline treats as an opaque collaborator. -/
inductive EncoderOutcome where
  | ok (dataUrl : String) : EncoderOutcome
  | errorWithMessage (msg : String) : EncoderOutcome
  | errorNonError : EncoderOutcome
deriving Repr, DecidableEq

/-- Embeds generateQRCode from src/src/utils/qrGenerator.ts, parameterized by
the outcome the external encoder would produce.  The second component counts
how many times the external encoder was invoked during the call, so that
"rejected before the encoder is invoked" is expressible. -/
def generateQRCode (encoder : EncoderOutcome) (options : QRCodeOptions) :
    Except QRGenerationError QRCodeResult × Nat :=
  match validateInput options.text with
  | .error e => (.error e, 0)
  | .ok _ =>
    match encoder with
    | .ok dataUrl => (.ok { dataUrl := dataUrl, width := options.size, height := options.size }, 1)
    | .errorWithMessage msg =>
      (.error { message := "QR code generation failed: " ++ msg }, 1)
    | .errorNonError =>
      (.error { message := "QR code generation failed: Unknown generation failure" }, 1)

/-- Wall-clock date components as read by the JavaScript Date accessors in
src/unnamed/part_004 (monthIndex is the 0-based getMonth value). -/
structure JsDate where
  year : Nat
  monthIndex : Nat
  day : Nat
  hours : Nat
  minutes : Nat
  seconds : Nat
deriving Repr, DecidableEq

/-- Model of String(n).padStart(2, zero) for a natural number. -/
def pad2 (n : Nat) : String :=
  if (toString n).length < 2 then "0" ++ toString n else toString n

/-- Embeds generateDefaultFilename from src/unnamed/part_004. -/
def generateDefaultFilename (now : JsDate) : String :=
  "qr-code-" ++ toString now.year ++ pad2 (now.monthIndex + 1) ++ pad2 now.day ++
  "-" ++ pad2 now.hours ++ pad2 now.minutes ++ pad2 now.seconds ++ ".png"

/-- Outcome of the DOM createElement/appendChild/click/removeChild block in
downloadQRCode, treated as an external collaborator that may throw. -/
inductive DomOutcome where
  | ok : DomOutcome
  | failsWithMessage (msg : String) : DomOutcome
  | failsNonError : DomOutcome
deriving Repr, DecidableEq

/-- Embeds downloadQRCode from src/unnamed/part_004.  A normal return carries
the filename handed to the anchor element; a thrown error is the error
message.  Validation and the default-filename computation happen before the
try block, so only DOM failures are wrapped. -/
def downloadQRCode (dom : DomOutcome) (now : JsDate) (dataUrl : String)
    (filename : Option String) : Except String String :=
  if dataUrl = "" ∨ strStartsWith dataUrl ("data:image/png;base64,") = false then
    .error ("Invalid PNG data URL provided")
  else
    let finalFilename := filename.getD (generateDefaultFilename now)
    match dom with
    | .ok => .ok finalFilename
    | .failsWithMessage msg => .error ("Failed to download QR code: " ++ msg)
    | .failsNonError => .error ("Failed to download QR code: Unknown error")

/-
Generation pipeline of src/src/App.tsx, as an event machine.

The generation useEffect re-runs whenever text or a settings field changes:
its cleanup clears the pending debounce timer, the body either resets the
display (empty trimmed text) or schedules a 300 ms timer; the timer callback
sets loading, clears the error and calls generateQRCode with the closure's
text and settings; the promise handlers apply their result unconditionally.
Events carry an explicit clock (milliseconds) so debounce timing is visible.
-/

/-- Mutable state of the App component that the generation effect touches,
together with bookkeeping of the pending timer, the requests in flight and
the number of generateQRCode calls issued. -/
structure PipelineState where
  text : String
  settings : QRSettings
  dataUrl : Option String
  isLoading : Bool
  error : Option String
  timer : Option (Nat × String × QRSettings)
  nextReqId : Nat
  inflight : List (Nat × String × QRSettings)
  encoderCalls : Nat
deriving Repr, DecidableEq

/-- Outcome of one settled generateQRCode promise. -/
inductive GenOutcome where
  | ok (result : QRCodeResult) : GenOutcome
  | err (e : QRGenerationError) : GenOutcome
deriving Repr, DecidableEq

/-- Events of a pipeline execution: a re-run of the generation effect after a
text/settings change, the debounce timer firing, and a generateQRCode promise
resolving.  Each carries its wall-clock time. -/
inductive PipelineEvent where
  | change (time : Nat) (text : String) (settings : QRSettings) : PipelineEvent
  | fire (time : Nat) : PipelineEvent
  | resolve (time : Nat) (reqId : Nat) (outcome : GenOutcome) : PipelineEvent
deriving Repr, DecidableEq

/-- Effect re-run: the previous effect's cleanup clears the timer, then the
body resets the display when the trimmed text is empty and otherwise
schedules the 300 ms debounce timer over the current text and settings. -/
def stepChange (t : Nat) (newText : String) (newSettings : QRSettings)
    (st : PipelineState) : PipelineState :=
  let cleared := { st with timer := none, text := newText, settings := newSettings }
  if (jsTrim newText).length = 0 then
    { cleared with dataUrl := none, error := none, isLoading := false }
  else
    { cleared with timer := some (t + 300, newText, newSettings) }

/-- Debounce timer callback: set loading, clear the error and issue the
generateQRCode call for the captured (trimmed) text and settings. -/
def stepFire (st : PipelineState) : PipelineState :=
  match st.timer with
  | none => st
  | some (_, txt, s) =>
    { st with timer := none, isLoading := true, error := none,
              inflight := st.inflight ++ [(st.nextReqId, jsTrim txt, s)],
              nextReqId := st.nextReqId + 1,
              encoderCalls := st.encoderCalls + 1 }

/-- Promise settlement: the then-handler stores the data URL and stops
loading, the catch-handler stores the message and clears the data URL.
The code applies the handlers unconditionally for every resolved request. -/
def stepResolve (reqId : Nat) (outcome : GenOutcome) (st : PipelineState) : PipelineState :=
  if st.inflight.any (fun p => p.1 == reqId) then
    let cleared := { st with inflight := st.inflight.filter (fun p => p.1 ≠ reqId) }
    match outcome with
    | .ok r => { cleared with dataUrl := some r.dataUrl, isLoading := false }
    | .err e => { cleared with error := some e.message, dataUrl := none, isLoading := false }
  else
    st

/-- One event step of the pipeline machine. -/
def step (st : PipelineState) (e : PipelineEvent) : PipelineState :=
  match e with
  | .change t txt s => stepChange t txt s st
  | .fire _ => stepFire st
  | .resolve _ reqId outcome => stepResolve reqId outcome st

/-- Run the machine over a list of events. -/
def run (st : PipelineState) (es : List PipelineEvent) : PipelineState :=
  es.foldl step st

/-- Wall-clock time of an event. -/
def eventTime : PipelineEvent → Nat
  | .change t _ _ => t
  | .fire t => t
  | .resolve t _ _ => t

/-- Validity of an event trace starting at clock value last: times never
decrease, the timer fires exactly at its scheduled time and only while
pending, and only in-flight requests resolve. -/
def validFrom (last : Nat) (st : PipelineState) : List PipelineEvent → Bool
  | [] => true
  | e :: es =>
    (match e with
     | .change t _ _ => decide (last ≤ t)
     | .fire t =>
       (match st.timer with
        | some (ft, _, _) => decide (last ≤ t) && decide (t = ft)
        | none => false)
     | .resolve t reqId _ =>
       decide (last ≤ t) && st.inflight.any (fun p => p.1 == reqId)) &&
    validFrom (eventTime e) (step st e) es

/-- Times of the change events of a trace, in order. -/
def changeTimes : List PipelineEvent → List Nat
  | [] => []
  | .change t _ _ :: es => t :: changeTimes es
  | .fire _ :: es => changeTimes es
  | .resolve _ _ _ :: es => changeTimes es

/-- Number of timer firings in a trace. -/
def fireCount : List PipelineEvent → Nat
  | [] => 0
  | .fire _ :: es => fireCount es + 1
  | .change _ _ _ :: es => fireCount es
  | .resolve _ _ _ :: es => fireCount es

/-- The App component's initial pipeline state: empty text, defaults, no
result, not loading, no error, nothing scheduled or in flight. -/
def initialPipelineState : PipelineState :=
  { text := "", settings := DEFAULT_SETTINGS, dataUrl := none, isLoading := false,
    error := none, timer := none, nextReqId := 0, inflight := [], encoderCalls := 0 }

/-
History-recording effect of src/src/App.tsx: when a successful generation is
displayed (dataUrl set, trimmed text nonempty, not loading, no error), an
entry is added unless lastHistoryTextRef already equals the trimmed text.
-/

/-- Embeds the history useEffect body together with lastHistoryTextRef.
Returns the updated ref and history list.  freshId and freshTs stand for the
id and timestamp the hook generates. -/
def historyEffect (dataUrl : Option String) (text : String) (isLoading : Bool)
    (error : Option String) (settings : QRSettings) (freshId freshTs : String)
    (lastRef : String) (hist : List QRHistoryItem) : String × List QRHistoryItem :=
  match dataUrl with
  | none => (lastRef, hist)
  | some _ =>
    if (jsTrim text).length ≠ 0 ∧ isLoading = false ∧ error = none then
      if lastRef ≠ jsTrim text then
        (jsTrim text,
         addToHistory { text := jsTrim text, foregroundColor := settings.foregroundColor,
                        backgroundColor := settings.backgroundColor, size := settings.qrSize,
                        margin := settings.margin } freshId freshTs hist)
      else
        (lastRef, hist)
    else
      (lastRef, hist)

/-- One successful generation of text followed by the history effect run it
triggers (dataUrl present, loading finished, no error). -/
def recordSuccess (settings : QRSettings) (text : String)
    (acc : String × List QRHistoryItem) : String × List QRHistoryItem :=
  historyEffect (some ("data:image/png;base64,qr")) text false none settings ("id") ("ts") acc.1 acc.2

/-- Fold of successive successful generations through the history effect. -/
def runSuccessfulGenerations (settings : QRSettings) (texts : List String)
    (start : String × List QRHistoryItem) : String × List QRHistoryItem :=
  texts.foldl (fun acc t => recordSuccess settings t acc) start

/-
Concrete inputs and auxiliary notions used by the statements below.
-/

deriving instance DecidableEq for Except

/-- Six addToHistory calls with texts item-0 .. item-5 on an empty history
(the concrete scenario of the spec's history-capacity property). -/
def sixAddsHistory : List QRHistoryItem :=
  (List.range 6).foldl
    (fun h i =>
      addToHistory { text := "item-" ++ toString i, foregroundColor := "#22d3ee",
                     backgroundColor := "#18181b", size := 256, margin := 2 } ("id") ("ts") h)
    []

/-- A fully valid execution of the pipeline machine in which a second request
(for text b) is issued while the first (for text a) is still in flight, the
second resolves first, and the first resolves last. -/
def staleTrace : List PipelineEvent :=
  [ .change 0 ("a") DEFAULT_SETTINGS,
    .fire 300,
    .change 310 ("b") DEFAULT_SETTINGS,
    .fire 610,
    .resolve 620 1 (.ok { dataUrl := ("urlB"), width := 256, height := 256 }),
    .resolve 700 0 (.ok { dataUrl := ("urlA"), width := 256, height := 256 }) ]

/-- A whitespace-only string of length 4097. -/
def ws4097 : String := ⟨List.replicate 4097 ' '⟩

/-- The all-letter string of length 4097. -/
def as4097 : String := ⟨List.replicate 4097 'a'⟩

/-- Decimal rendering of a natural number as a list of characters; proved
below to agree with the Nat.repr used by toString. -/
def natDecimal (n : Nat) : List Char :=
  if n < 10 then [Nat.digitChar n]
  else natDecimal (n / 10) ++ [Nat.digitChar (n % 10)]
termination_by n
decreasing_by omega

/-- The string has the exact shape qr-code-YYYYMMDD-HHMMSS.png: the fixed
stem, eight digits, a dash, six digits, and the png extension. -/
def isDefaultFilenameShape (s : String) : Prop :=
  ∃ d8 d6 : List Char, d8.length = 8 ∧ d6.length = 6 ∧
    d8.all isDigitChar = true ∧ d6.all isDigitChar = true ∧
    s.data = "qr-code-".data ++ d8 ++ ['-'] ++ d6 ++ ".png".data

/-- A prior pipeline state with a displayed result, loading flag, error and
some issued calls, for exercising the empty-text reset. -/
def c3PriorState : PipelineState :=
  { initialPipelineState with
    dataUrl := some ("u"), isLoading := true,
    encoderCalls := 3, error := (some ("boom")) }

/-- Concrete options with the text hello. -/
def c10Opts : QRCodeOptions :=
  { text := "hello", foregroundColor := "#000000", backgroundColor := "#ffffff",
    size := 256, errorCorrectionLevel := .M, margin := 4 }

/-- Options carrying the 4097-space text. -/
def wsOpts : QRCodeOptions :=
  { text := ws4097, foregroundColor := "#000000", backgroundColor := "#ffffff",
    size := 256, errorCorrectionLevel := .M, margin := 4 }

/-- Options carrying the 4097-letter text. -/
def asOpts : QRCodeOptions :=
  { text := as4097, foregroundColor := "#000000", backgroundColor := "#ffffff",
    size := 256, errorCorrectionLevel := .M, margin := 4 }

/-- Invariant tied to lastHistoryTextRef: the ref names the newest recorded
entry (when one exists) and no two adjacent entries share their text. -/
def historyRefInvariant (p : String × List QRHistoryItem) : Prop :=
  (∀ it, p.2.head? = some it → it.text = p.1) ∧
  List.Chain' (fun a b => a.text ≠ b.text) p.2

/-- A burst of three changes inside the debounce window, then the surviving
timer fires once and its request resolves. -/
def burstTrace : List PipelineEvent :=
  [ .change 0 ("a") DEFAULT_SETTINGS,
    .change 100 ("ab") DEFAULT_SETTINGS,
    .change 250 ("abc") DEFAULT_SETTINGS,
    .fire 550,
    .resolve 560 0 (.ok { dataUrl := ("d"), width := 256, height := 256 }) ]

/-- A state with two generation requests in flight (ids 0 and 1). -/
def twoInflightState : PipelineState :=
  { initialPipelineState with
    isLoading := true, nextReqId := 2,
    inflight := [(0, ("a"), DEFAULT_SETTINGS), (1, ("b"), DEFAULT_SETTINGS)],
    encoderCalls := 2 }

/-- The wall-clock date the repository's own download test pins
(January 15, 2024, 10:30:45). -/
def testDate : JsDate :=
  { year := 2024, monthIndex := 0, day := 15, hours := 10, minutes := 30, seconds := 45 }

/-- A concrete valid history entry. -/
def sampleHistoryItem : QRHistoryItem :=
  { id := "1", text := "https://example.com", foregroundColor := "#000000",
    backgroundColor := "#ffffff", size := 256, margin := 2,
    timestamp := "2025-01-01T00:00:00.000Z" }

end QRCodeGen

namespace QRCodeGen

/-- Dropping while a predicate holds of the replicated element clears the
whole list. -/
theorem dropWhile_replicate_of_pos {α : Type} (p : α → Bool) (n : Nat) (a : α)
    (h : p a = true) : (List.replicate n a).dropWhile p = [] := by
  induction n with
  | zero => rfl
  | succ n ih => simp [List.replicate_succ, List.dropWhile_cons, h, ih]

/-- Dropping while a predicate fails of the replicated element keeps the
whole list. -/
theorem dropWhile_replicate_of_neg {α : Type} (p : α → Bool) (n : Nat) (a : α)
    (h : p a = false) : (List.replicate n a).dropWhile p = List.replicate n a := by
  cases n with
  | zero => rfl
  | succ n => simp [List.replicate_succ, List.dropWhile_cons, h]

/-- Trimming a whitespace-only string yields the empty string. -/
theorem jsTrim_replicate_space (n : Nat) : jsTrim ⟨List.replicate n ' '⟩ = "" := by
  have h : isJsWhitespace ' ' = true := by decide
  simp [jsTrim, dropWhile_replicate_of_pos _ _ _ h]

/-- Trimming a string of letters leaves it unchanged. -/
theorem jsTrim_replicate_a (n : Nat) :
    jsTrim ⟨List.replicate n 'a'⟩ = ⟨List.replicate n 'a'⟩ := by
  have h : isJsWhitespace 'a' = false := by decide
  simp [jsTrim, dropWhile_replicate_of_neg _ _ _ h, List.reverse_replicate]

/-- C3: for every text value whose trimmed length is 0, a run of the
generation effect resets the pipeline to idle regardless of prior state: the
displayed dataUrl and the error become absent, loading becomes false, no
debounce timer is scheduled, and no encoder call is issued for that text. -/
theorem empty_text_resets_to_idle (st : PipelineState) (t : Nat) (txt : String)
    (s : QRSettings) (h : (jsTrim txt).length = 0) :
    (stepChange t txt s st).dataUrl = none ∧ (stepChange t txt s st).error = none ∧
    (stepChange t txt s st).isLoading = false ∧ (stepChange t txt s st).timer = none ∧
    (stepChange t txt s st).encoderCalls = st.encoderCalls := by
  simp [stepChange, h]

/-- Witness for C3 at the two-space string and a busy prior state. -/
theorem empty_text_resets_to_idle_witness :
    (jsTrim ("  ")).length = 0 ∧
    ((stepChange 7 ("  ") DEFAULT_SETTINGS c3PriorState).dataUrl = none ∧
     (stepChange 7 ("  ") DEFAULT_SETTINGS c3PriorState).error = none ∧
     (stepChange 7 ("  ") DEFAULT_SETTINGS c3PriorState).isLoading = false ∧
     (stepChange 7 ("  ") DEFAULT_SETTINGS c3PriorState).timer = none ∧
     (stepChange 7 ("  ") DEFAULT_SETTINGS c3PriorState).encoderCalls =
       c3PriorState.encoderCalls) :=
  ⟨by decide, empty_text_resets_to_idle c3PriorState 7 ("  ") DEFAULT_SETTINGS (by decide)⟩

/-- C2: evaluation of addToHistory at the claim's own scenario.  The claim
(matching the hook's test, which expects MAX_HISTORY_ITEMS = 5) says six adds
leave 5 entries with item-0 evicted; the source constant is 10 and six adds
keep all six entries, newest first. -/
theorem history_six_adds_keeps_six :
    MAX_HISTORY_ITEMS = 10 ∧ sixAddsHistory.length = 6 ∧
    sixAddsHistory.map (fun it => it.text) =
      ["item-5", "item-4", "item-3", "item-2", "item-1", "item-0"] := by
  decide

/-- C6: with nothing (or nothing valid) persisted, initialization yields the
defaults; each setter applies exactly its own field when its validator
accepts the value and leaves the record entirely unchanged otherwise; in
particular setQrSize 2048 on the default record is rejected (2048 exceeds
the 1024 bound) and qrSize stays 256. -/
theorem settings_store_invariants (s : QRSettings) (j : Json)
    (cbad cgood : String) (nbad ngood mbad mgood : Int)
    (hj : loadSettingsFromStorage (.json j) = none)
    (hcb : isValidHexColor cbad = false) (hcg : isValidHexColor cgood = true)
    (hnb : isValidSize nbad = false) (hng : isValidSize ngood = true)
    (hmb : isValidMargin mbad = false) (hmg : isValidMargin mgood = true) :
    initSettings .absent = DEFAULT_SETTINGS ∧
    initSettings .corrupt = DEFAULT_SETTINGS ∧
    initSettings (.json j) = DEFAULT_SETTINGS ∧
    setForegroundColor cbad s = s ∧ setBackgroundColor cbad s = s ∧
    setQrSize nbad s = s ∧ setMargin mbad s = s ∧
    setForegroundColor cgood s = { s with foregroundColor := cgood } ∧
    setBackgroundColor cgood s = { s with backgroundColor := cgood } ∧
    setQrSize ngood s = { s with qrSize := ngood } ∧
    setMargin mgood s = { s with margin := mgood } ∧
    setQrSize 2048 DEFAULT_SETTINGS = DEFAULT_SETTINGS ∧
    (setQrSize 2048 DEFAULT_SETTINGS).qrSize = 256 := by
  refine ⟨rfl, rfl, ?_, ?_, ?_, ?_, ?_, ?_, ?_, ?_, ?_, by decide, by decide⟩
  · simp [initSettings, hj]
  · simp [setForegroundColor, hcb]
  · simp [setBackgroundColor, hcb]
  · simp [setQrSize, hnb]
  · simp [setMargin, hmb]
  · simp [setForegroundColor, hcg]
  · simp [setBackgroundColor, hcg]
  · simp [setQrSize, hng]
  · simp [setMargin, hmg]

/-- Witness for C6 at concrete colors, sizes and margins. -/
theorem settings_store_invariants_witness :
    (loadSettingsFromStorage (.json .null) = none ∧
     isValidHexColor ("nope") = false ∧ isValidHexColor ("#ff0000") = true ∧
     isValidSize 2048 = false ∧ isValidSize 512 = true ∧
     isValidMargin (-1) = false ∧ isValidMargin 4 = true) ∧
    (initSettings .absent = DEFAULT_SETTINGS ∧
     initSettings .corrupt = DEFAULT_SETTINGS ∧
     initSettings (.json .null) = DEFAULT_SETTINGS ∧
     setForegroundColor ("nope") DEFAULT_SETTINGS = DEFAULT_SETTINGS ∧
     setBackgroundColor ("nope") DEFAULT_SETTINGS = DEFAULT_SETTINGS ∧
     setQrSize 2048 DEFAULT_SETTINGS = DEFAULT_SETTINGS ∧
     setMargin (-1) DEFAULT_SETTINGS = DEFAULT_SETTINGS ∧
     setForegroundColor ("#ff0000") DEFAULT_SETTINGS =
       { DEFAULT_SETTINGS with foregroundColor := ("#ff0000") } ∧
     setBackgroundColor ("#ff0000") DEFAULT_SETTINGS =
       { DEFAULT_SETTINGS with backgroundColor := ("#ff0000") } ∧
     setQrSize 512 DEFAULT_SETTINGS = { DEFAULT_SETTINGS with qrSize := 512 } ∧
     setMargin 4 DEFAULT_SETTINGS = { DEFAULT_SETTINGS with margin := 4 } ∧
     setQrSize 2048 DEFAULT_SETTINGS = DEFAULT_SETTINGS ∧
     (setQrSize 2048 DEFAULT_SETTINGS).qrSize = 256) :=
  ⟨⟨by decide, by decide, by decide, by decide, by decide, by decide, by decide⟩,
   settings_store_invariants DEFAULT_SETTINGS .null ("nope") ("#ff0000") 2048 512 (-1) 4
     (by decide) (by decide) (by decide) (by decide) (by decide) (by decide) (by decide)⟩

/-- C10: every string accepted by isValidQRText passes validateInput, so a
generateQRCode call on it always reaches the encoder (exactly one encoder
call), and any failure it reports is the wrapped encoder failure. -/
theorem valid_text_skips_validation (s : String) (enc : EncoderOutcome)
    (opts : QRCodeOptions) (h : isValidQRText s = true) (ht : opts.text = s) :
    validateInput s = .ok () ∧ (generateQRCode enc opts).2 = 1 ∧
    ∀ e, (generateQRCode enc opts).1 = .error e →
      ∃ m, e.message = ("QR code generation failed: ") ++ m := by
  have hb : 0 < (jsTrim s).length ∧ s.length ≤ 4096 := by
    have hx := h
    simp [isValidQRText] at hx
    exact hx
  have hne : ¬(s = "" ∨ (jsTrim s).length = 0) := by
    rintro (rfl | hz)
    · have : jsTrim "" = "" := rfl
      rw [this] at hb
      exact absurd hb.1 (by decide)
    · omega
  have hlen : ¬(4096 < s.length) := by
    have := hb.2
    omega
  have hv : validateInput s = .ok () := by
    simp [validateInput, hne, hlen]
  refine ⟨hv, ?_, ?_⟩
  · cases enc <;> simp [generateQRCode, ht, hv]
  · cases enc with
    | ok u =>
      intro e he
      simp [generateQRCode, ht, hv] at he
    | errorWithMessage msg =>
      intro e he
      simp [generateQRCode, ht, hv] at he
      exact ⟨msg, by rw [← he]⟩
    | errorNonError =>
      intro e he
      simp [generateQRCode, ht, hv] at he
      refine ⟨"Unknown generation failure", ?_⟩
      rw [← he]
      decide

/-- Witness for C10 at the text hello and a failing encoder. -/
theorem valid_text_skips_validation_witness :
    isValidQRText ("hello") = true ∧
    (validateInput ("hello") = .ok () ∧
     (generateQRCode (.errorWithMessage ("boom")) c10Opts).2 = 1 ∧
     ∀ e, (generateQRCode (.errorWithMessage ("boom")) c10Opts).1 = .error e →
       ∃ m, e.message = ("QR code generation failed: ") ++ m) :=
  ⟨by decide,
   valid_text_skips_validation ("hello") (.errorWithMessage ("boom")) c10Opts (by decide) rfl⟩

/-- C4 counterexample: the whitespace-only string of length 4097 exceeds the
4096 bound, yet generateQRCode rejects it with the empty-input message — the
trimmed-empty check runs first — and not with a message stating the maximum
length is exceeded.  No encoder call happens either way. -/
theorem overlong_whitespace_counterexample :
    4096 < ws4097.length ∧
    generateQRCode (.ok ("u")) wsOpts = (.error { message := emptyTextMessage }, 0) ∧
    emptyTextMessage ≠ lengthExceededMessage ws4097 := by
  have hl : ws4097.length = 4097 := List.length_replicate 4097 ' '
  have htrim : jsTrim ws4097 = "" := jsTrim_replicate_space 4097
  have hcond : ws4097 = "" ∨ (jsTrim ws4097).length = 0 := by
    right
    rw [htrim]
    rfl
  refine ⟨by omega, ?_, ?_⟩
  · simp [generateQRCode, validateInput, wsOpts, hcond]
  · simp [lengthExceededMessage, hl]
    decide

/-- C4 amended: for every options value whose text has length above 4096 and
whose trimmed text is nonempty, generateQRCode rejects with the
QRGenerationError stating the 4096-character maximum is exceeded, and the
external encoder is never invoked for that call. -/
theorem overlong_text_rejected_before_encoder (enc : EncoderOutcome)
    (opts : QRCodeOptions) (hlen : 4096 < opts.text.length)
    (htrim : (jsTrim opts.text).length ≠ 0) :
    generateQRCode enc opts = (.error { message := lengthExceededMessage opts.text }, 0) := by
  have hne : ¬(opts.text = "" ∨ (jsTrim opts.text).length = 0) := by
    rintro (hz | hz)
    · rw [hz] at hlen
      exact absurd hlen (by decide)
    · exact htrim hz
  simp [generateQRCode, validateInput, hne, hlen]

/-- Witness for the amended C4 at the 4097-letter string. -/
theorem overlong_text_rejected_before_encoder_witness :
    4096 < as4097.length ∧ (jsTrim as4097).length ≠ 0 ∧
    generateQRCode (.ok ("u")) asOpts =
      (.error { message := lengthExceededMessage as4097 }, 0) := by
  have hl : as4097.length = 4097 := List.length_replicate 4097 'a'
  have ht : jsTrim as4097 = as4097 := jsTrim_replicate_a 4097
  have h1 : (4096 : Nat) < as4097.length := by omega
  have h2 : (jsTrim as4097).length ≠ 0 := by
    rw [ht]
    omega
  exact ⟨h1, h2, overlong_text_rejected_before_encoder (.ok ("u")) asOpts h1 h2⟩

end QRCodeGen

namespace QRCodeGen

/-- Serialization then the per-item load filter returns the original item. -/
theorem historyItemOfJson_roundtrip (it : QRHistoryItem) :
    historyItemOfJson (historyItemToJson it) = some it := rfl

/-- C8: save-then-load is the identity for every settings record the store's
own validator accepts and every history list of well-typed items within the
capacity bound; a missing or unparsable payload loads as if nothing were
stored (none for settings, the empty list for history); a validation-failing
settings payload can never produce a value, and a non-array history payload
loads as the empty list. -/
theorem persistence_roundtrip (s : QRSettings) (h : List QRHistoryItem)
    (hs : isValidSettings s = true) (hh : h.length ≤ MAX_HISTORY_ITEMS) :
    loadSettingsFromStorage (saveSettingsToStorage s) = some s ∧
    loadHistoryFromStorage (saveHistoryToStorage h) = h ∧
    loadSettingsFromStorage .absent = none ∧
    loadSettingsFromStorage .corrupt = none ∧
    loadHistoryFromStorage .absent = [] ∧
    loadHistoryFromStorage .corrupt = [] ∧
    (∀ j v, loadSettingsFromStorage (.json j) = some v → isValidSettings v = true) ∧
    (∀ j, (∀ xs, j ≠ Json.arr xs) → loadHistoryFromStorage (.json j) = []) := by
  refine ⟨?_, ?_, rfl, rfl, rfl, rfl, ?_, ?_⟩
  · have hred : loadSettingsFromStorage (saveSettingsToStorage s) =
        if isValidSettings s = true then some s else none := rfl
    rw [hred, if_pos hs]
  · have hred : loadHistoryFromStorage (saveHistoryToStorage h) =
        ((h.map historyItemToJson).filterMap historyItemOfJson).take MAX_HISTORY_ITEMS := rfl
    rw [hred, List.filterMap_map]
    have hcomp : (historyItemOfJson ∘ historyItemToJson) = some := by
      funext it
      exact historyItemOfJson_roundtrip it
    rw [hcomp, List.filterMap_some, List.take_of_length_le hh]
  · intro j v hv
    simp only [loadSettingsFromStorage] at hv
    split at hv
    · split at hv
      · rename_i hcond
        cases hv
        exact hcond
      · cases hv
    · cases hv
  · intro j hj
    cases j with
    | arr xs => exact absurd rfl (hj xs)
    | null => rfl
    | bool b => rfl
    | num n => rfl
    | str s2 => rfl
    | obj fs => rfl

/-- Witness for C8 at the default settings and a one-item history. -/
theorem persistence_roundtrip_witness :
    (isValidSettings DEFAULT_SETTINGS = true ∧ [sampleHistoryItem].length ≤ MAX_HISTORY_ITEMS) ∧
    (loadSettingsFromStorage (saveSettingsToStorage DEFAULT_SETTINGS) = some DEFAULT_SETTINGS ∧
     loadHistoryFromStorage (saveHistoryToStorage [sampleHistoryItem]) = [sampleHistoryItem] ∧
     loadSettingsFromStorage .absent = none ∧
     loadSettingsFromStorage .corrupt = none ∧
     loadHistoryFromStorage .absent = [] ∧
     loadHistoryFromStorage .corrupt = [] ∧
     (∀ j v, loadSettingsFromStorage (.json j) = some v → isValidSettings v = true) ∧
     (∀ j, (∀ xs, j ≠ Json.arr xs) → loadHistoryFromStorage (.json j) = [])) :=
  ⟨⟨by decide, by decide⟩,
   persistence_roundtrip DEFAULT_SETTINGS [sampleHistoryItem] (by decide) (by decide)⟩

/-- Head of a positive-length take of a cons cell. -/
theorem take_pos_cons_head {α : Type} (a : α) (l : List α) (n : Nat) (h : 0 < n) :
    ((a :: l).take n).head? = some a := by
  cases n with
  | zero => omega
  | succ n => rfl

/-- The history effect preserves the lastHistoryTextRef invariant, on every
input (displayed result present or not, loading or not, error or not). -/
theorem historyEffect_invariant (du : Option String) (text : String) (ld : Bool)
    (err : Option String) (settings : QRSettings) (idf tsf lastRef : String)
    (hist : List QRHistoryItem) (hinv : historyRefInvariant (lastRef, hist)) :
    historyRefInvariant (historyEffect du text ld err settings idf tsf lastRef hist) := by
  cases du with
  | none => exact hinv
  | some d =>
    simp only [historyEffect]
    split_ifs
    · rename_i hout hins
      constructor
      · intro it hit
        simp only [addToHistory] at hit
        rw [take_pos_cons_head _ _ _ (by decide : 0 < MAX_HISTORY_ITEMS)] at hit
        cases hit
        rfl
      · simp only [addToHistory]
        refine List.Chain'.prefix ?_ (List.take_prefix _ _)
        rw [List.chain'_cons']
        refine ⟨?_, hinv.2⟩
        intro b hb
        have hbtext : b.text = lastRef := hinv.1 b hb
        simp only [hbtext]
        intro hcontra
        exact hins hcontra.symm
    · exact hinv
    · exact hinv

/-- Every run of successful generations preserves the ref invariant. -/
theorem runSuccessfulGenerations_invariant (settings : QRSettings) (texts : List String)
    (start : String × List QRHistoryItem) (h : historyRefInvariant start) :
    historyRefInvariant (runSuccessfulGenerations settings texts start) := by
  induction texts generalizing start with
  | nil => exact h
  | cons t ts ih =>
    exact ih _ (historyEffect_invariant _ t false none settings _ _ start.1 start.2 h)

/-- After a successful generation of nonempty trimmed text, the ref equals
that trimmed text. -/
theorem recordSuccess_ref (settings : QRSettings) (t : String)
    (p : String × List QRHistoryItem) (h : (jsTrim t).length ≠ 0) :
    (recordSuccess settings t p).1 = jsTrim t := by
  simp only [recordSuccess, historyEffect]
  split_ifs
  · rfl
  · rename_i hins
    simpa using hins
  · rename_i hout
    exact absurd ⟨h, trivial, trivial⟩ hout

/-- A successful generation whose trimmed text equals the ref is a no-op. -/
theorem recordSuccess_same (settings : QRSettings) (t : String)
    (p : String × List QRHistoryItem) (heq : p.1 = jsTrim t) :
    recordSuccess settings t p = p := by
  simp only [recordSuccess, historyEffect]
  split_ifs
  · rename_i hins
    exact absurd heq hins
  · rfl
  · rfl

/-- A successful generation whose trimmed text differs from the ref records
one entry. -/
theorem recordSuccess_add (settings : QRSettings) (t : String)
    (p : String × List QRHistoryItem) (h : (jsTrim t).length ≠ 0)
    (hne : p.1 ≠ jsTrim t) :
    recordSuccess settings t p =
      (jsTrim t,
       addToHistory { text := jsTrim t, foregroundColor := settings.foregroundColor,
                      backgroundColor := settings.backgroundColor, size := settings.qrSize,
                      margin := settings.margin } ("id") ("ts") p.2) := by
  simp only [recordSuccess, historyEffect]
  split_ifs
  · rfl
  · rename_i hout
    exact absurd ⟨h, trivial, trivial⟩ hout

/-- C7: the history effect records a new entry exactly when the trimmed text
differs from the ref naming the most recently recorded entry; generating the
same trimmed text twice in a row records nothing new; generating it again
after a different text records a new entry; and along any run of successful
generations (from a session-initial empty history) the ref always names the
newest entry and no two adjacent entries share their text. -/
theorem history_duplicate_suppression (settings : QRSettings)
    (du lastRef text idf tsf t u : String) (hist : List QRHistoryItem)
    (start : String × List QRHistoryItem) (texts : List String)
    (htext : (jsTrim text).length ≠ 0)
    (ht : (jsTrim t).length ≠ 0) (hu : (jsTrim u).length ≠ 0)
    (htu : jsTrim t ≠ jsTrim u) :
    (lastRef = jsTrim text →
      historyEffect (some du) text false none settings idf tsf lastRef hist = (lastRef, hist)) ∧
    (lastRef ≠ jsTrim text →
      historyEffect (some du) text false none settings idf tsf lastRef hist =
        (jsTrim text,
         addToHistory { text := jsTrim text, foregroundColor := settings.foregroundColor,
                        backgroundColor := settings.backgroundColor, size := settings.qrSize,
                        margin := settings.margin } idf tsf hist)) ∧
    runSuccessfulGenerations settings [t, t] start = runSuccessfulGenerations settings [t] start ∧
    ((runSuccessfulGenerations settings [t, u] start).1 = jsTrim u ∧
     runSuccessfulGenerations settings [t, u, t] start =
       (jsTrim t,
        addToHistory { text := jsTrim t, foregroundColor := settings.foregroundColor,
                       backgroundColor := settings.backgroundColor, size := settings.qrSize,
                       margin := settings.margin } ("id") ("ts")
          (runSuccessfulGenerations settings [t, u] start).2)) ∧
    historyRefInvariant (runSuccessfulGenerations settings texts (lastRef, [])) := by
  refine ⟨?_, ?_, ?_, ⟨?_, ?_⟩, ?_⟩
  · intro heq
    simp only [historyEffect]
    split_ifs
    · rename_i hins
      exact absurd heq hins
    · rfl
    · rfl
  · intro hne
    simp only [historyEffect]
    split_ifs
    · rfl
    · rename_i hout
      exact absurd ⟨htext, trivial, trivial⟩ hout
  · show recordSuccess settings t (recordSuccess settings t start) = recordSuccess settings t start
    exact recordSuccess_same settings t _ (recordSuccess_ref settings t start ht)
  · exact recordSuccess_ref settings u _ hu
  · show recordSuccess settings t (recordSuccess settings u (recordSuccess settings t start)) = _
    refine recordSuccess_add settings t _ ht ?_
    rw [recordSuccess_ref settings u _ hu]
    exact fun hc => htu hc.symm
  · refine runSuccessfulGenerations_invariant settings texts (lastRef, []) ?_
    constructor
    · intro it hit
      cases hit
    · exact List.chain'_nil

/-- Witness for C7 at concrete texts. -/
theorem history_duplicate_suppression_witness :
    ((jsTrim ("x")).length ≠ 0 ∧ (jsTrim ("a")).length ≠ 0 ∧
     (jsTrim ("b")).length ≠ 0 ∧ jsTrim ("a") ≠ jsTrim ("b")) ∧
    (("" : String) = jsTrim ("x") →
      historyEffect (some ("d")) ("x") false none DEFAULT_SETTINGS ("i") ("s") "" [] = ("", [])) ∧
    (("" : String) ≠ jsTrim ("x") →
      historyEffect (some ("d")) ("x") false none DEFAULT_SETTINGS ("i") ("s") "" [] =
        (jsTrim ("x"),
         addToHistory { text := jsTrim ("x"),
                        foregroundColor := DEFAULT_SETTINGS.foregroundColor,
                        backgroundColor := DEFAULT_SETTINGS.backgroundColor,
                        size := DEFAULT_SETTINGS.qrSize,
                        margin := DEFAULT_SETTINGS.margin } ("i") ("s") [])) ∧
    runSuccessfulGenerations DEFAULT_SETTINGS [("a"), ("a")] ("", []) =
      runSuccessfulGenerations DEFAULT_SETTINGS [("a")] ("", []) ∧
    ((runSuccessfulGenerations DEFAULT_SETTINGS [("a"), ("b")] ("", [])).1 = jsTrim ("b") ∧
     runSuccessfulGenerations DEFAULT_SETTINGS [("a"), ("b"), ("a")] ("", []) =
       (jsTrim ("a"),
        addToHistory { text := jsTrim ("a"),
                       foregroundColor := DEFAULT_SETTINGS.foregroundColor,
                       backgroundColor := DEFAULT_SETTINGS.backgroundColor,
                       size := DEFAULT_SETTINGS.qrSize,
                       margin := DEFAULT_SETTINGS.margin } ("id") ("ts")
          (runSuccessfulGenerations DEFAULT_SETTINGS [("a"), ("b")] ("", [])).2)) ∧
    historyRefInvariant (runSuccessfulGenerations DEFAULT_SETTINGS [("a"), ("b"), ("a")] ("", [])) :=
  ⟨⟨by decide, by decide, by decide, by decide⟩,
   history_duplicate_suppression DEFAULT_SETTINGS ("d") "" ("x") ("i") ("s") ("a") ("b") []
     ("", []) [("a"), ("b"), ("a")] (by decide) (by decide) (by decide) (by decide)⟩

end QRCodeGen

namespace QRCodeGen

/-- Resolving a request leaves the debounce timer untouched. -/
theorem stepResolve_timer (reqId : Nat) (o : GenOutcome) (st : PipelineState) :
    (stepResolve reqId o st).timer = st.timer := by
  simp only [stepResolve]
  split_ifs
  · cases o <;> rfl
  · rfl

/-- Resolving a request issues no encoder call. -/
theorem stepResolve_encoderCalls (reqId : Nat) (o : GenOutcome) (st : PipelineState) :
    (stepResolve reqId o st).encoderCalls = st.encoderCalls := by
  simp only [stepResolve]
  split_ifs
  · cases o <;> rfl
  · rfl

/-- An effect re-run issues no encoder call by itself. -/
theorem stepChange_encoderCalls (t : Nat) (txt : String) (s0 : QRSettings)
    (st : PipelineState) : (stepChange t txt s0 st).encoderCalls = st.encoderCalls := by
  simp only [stepChange]
  split_ifs <;> rfl

/-- Unfolding one valid step: the event time is past the clock and the tail
is valid from the event's time in the stepped state. -/
theorem validFrom_cons (last : Nat) (st : PipelineState) (e : PipelineEvent)
    (es : List PipelineEvent) (hv : validFrom last st (e :: es) = true) :
    last ≤ eventTime e ∧ validFrom (eventTime e) (step st e) es = true := by
  cases e with
  | change t txt s0 =>
    simp only [validFrom, Bool.and_eq_true, decide_eq_true_eq, eventTime] at hv ⊢
    exact hv
  | fire t =>
    simp only [validFrom, Bool.and_eq_true, eventTime] at hv ⊢
    obtain ⟨hhead, htail⟩ := hv
    refine ⟨?_, htail⟩
    cases hst : st.timer with
    | none =>
      rw [hst] at hhead
      cases hhead
    | some x =>
      obtain ⟨ft, txt0, s0⟩ := x
      rw [hst] at hhead
      simp only [Bool.and_eq_true, decide_eq_true_eq] at hhead
      exact hhead.1
  | resolve t reqId o =>
    simp only [validFrom, Bool.and_eq_true, decide_eq_true_eq, eventTime] at hv ⊢
    exact ⟨hv.1.1, hv.2⟩

/-- A valid fire event needs a pending timer scheduled for exactly its time. -/
theorem validFrom_fire (last : Nat) (st : PipelineState) (t : Nat)
    (es : List PipelineEvent) (hv : validFrom last st (.fire t :: es) = true) :
    ∃ ft txt0 s0, st.timer = some (ft, txt0, s0) ∧ t = ft := by
  simp only [validFrom, Bool.and_eq_true] at hv
  obtain ⟨hhead, -⟩ := hv
  cases hst : st.timer with
  | none =>
    rw [hst] at hhead
    cases hhead
  | some x =>
    obtain ⟨ft, txt0, s0⟩ := x
    rw [hst] at hhead
    simp only [Bool.and_eq_true, decide_eq_true_eq] at hhead
    exact ⟨ft, txt0, s0, rfl, hhead.2⟩

/-- All change events of a valid trace happen at or after the clock. -/
theorem validFrom_changeTimes (es : List PipelineEvent) (st : PipelineState) (last : Nat)
    (hv : validFrom last st es = true) : ∀ tc ∈ changeTimes es, last ≤ tc := by
  induction es generalizing st last with
  | nil =>
    intro tc htc
    cases htc
  | cons e es ih =>
    obtain ⟨hle, htail⟩ := validFrom_cons last st e es hv
    intro tc htc
    cases e with
    | change t txt s0 =>
      simp only [changeTimes, List.mem_cons] at htc
      rcases htc with rfl | htc2
      · exact hle
      · exact le_trans hle (ih (step _ _) (eventTime _) htail tc htc2)
    | fire t =>
      exact le_trans hle (ih (step _ _) (eventTime _) htail tc htc)
    | resolve t reqId o =>
      exact le_trans hle (ih (step _ _) (eventTime _) htail tc htc)

/-- Over a valid trace, the encoder-call counter grows by exactly the number
of timer firings. -/
theorem run_encoderCalls (es : List PipelineEvent) (st : PipelineState) (last : Nat)
    (hv : validFrom last st es = true) :
    (run st es).encoderCalls = st.encoderCalls + fireCount es := by
  induction es generalizing st last with
  | nil => rfl
  | cons e es ih =>
    obtain ⟨-, htail⟩ := validFrom_cons last st e es hv
    have hrun : run st (e :: es) = run (step st e) es := rfl
    rw [hrun, ih (step st e) (eventTime e) htail]
    cases e with
    | change t txt s0 =>
      simp only [step, fireCount, stepChange_encoderCalls]
    | fire t =>
      obtain ⟨ft, txt0, s0, hst, -⟩ := validFrom_fire last st t es hv
      simp only [step, fireCount, stepFire, hst]
      omega
    | resolve t reqId o =>
      simp only [step, fireCount, stepResolve_encoderCalls]

/-- With no pending timer and no further change events, a valid trace fires
no timer at all. -/
theorem no_change_no_fire (es : List PipelineEvent) (st : PipelineState) (last : Nat)
    (hv : validFrom last st es = true) (ht : st.timer = none)
    (hc : changeTimes es = []) : fireCount es = 0 := by
  induction es generalizing st last with
  | nil => rfl
  | cons e es ih =>
    obtain ⟨-, htail⟩ := validFrom_cons last st e es hv
    cases e with
    | change t txt s0 =>
      simp only [changeTimes] at hc
      cases hc
    | fire t =>
      obtain ⟨ft, txt0, s0, hst, -⟩ := validFrom_fire last st t es hv
      rw [ht] at hst
      cases hst
    | resolve t reqId o =>
      have ht2 : (step st (.resolve t reqId o)).timer = none := by
        rw [show step st (.resolve t reqId o) = stepResolve reqId o st from rfl,
            stepResolve_timer]
        exact ht
      simp only [fireCount]
      exact ih (step st (.resolve t reqId o)) (eventTime (.resolve t reqId o)) htail ht2 hc

/-- Core debounce bound: along a valid trace whose change events each fall
inside the 300 ms window of the previous one, and whose initial timer (if
any) is due only after the first change, at most one timer ever fires. -/
theorem burst_fire_bound (es : List PipelineEvent) (st : PipelineState) (last : Nat)
    (hv : validFrom last st es = true)
    (hburst : List.Chain' (fun a b => b < a + 300) (changeTimes es))
    (htimer : ∀ ft txt0 s0, st.timer = some (ft, txt0, s0) →
      ∀ tc, (changeTimes es).head? = some tc → tc < ft) :
    fireCount es ≤ 1 := by
  induction es generalizing st last with
  | nil => exact Nat.zero_le 1
  | cons e es ih =>
    obtain ⟨hle, htail⟩ := validFrom_cons last st e es hv
    cases e with
    | change t txt s0 =>
      have hchain : List.Chain' (fun a b => b < a + 300) (t :: changeTimes es) := hburst
      rw [List.chain'_cons'] at hchain
      simp only [fireCount]
      refine ih (step st (.change t txt s0)) (eventTime (.change t txt s0)) htail hchain.2 ?_
      intro ft txt1 s1 hft tc htc
      simp only [step, stepChange] at hft
      split at hft
      · cases hft
      · rw [Option.some_inj] at hft
        obtain ⟨hfteq, -⟩ := Prod.mk.injEq .. ▸ hft
        rw [← hfteq]
        exact hchain.1 tc (by simp [htc])
    | fire t =>
      obtain ⟨ft, txt0, s0, hst, hteq⟩ := validFrom_fire last st t es hv
      have hempty : changeTimes es = [] := by
        cases hc : (changeTimes es).head? with
        | none => exact List.head?_eq_none_iff.mp hc
        | some tc =>
          have h1 : tc < ft := htimer ft txt0 s0 hst tc hc
          have h2 : t ≤ tc :=
            validFrom_changeTimes es (step st (.fire t)) (eventTime (.fire t)) htail tc
              (List.mem_of_mem_head? (by simp [hc]))
          omega
      have ht2 : (step st (.fire t)).timer = none := by
        simp only [step, stepFire, hst]
      have hzero : fireCount es = 0 :=
        no_change_no_fire es (step st (.fire t)) (eventTime (.fire t)) htail ht2 hempty
      simp only [fireCount, hzero]
      omega
    | resolve t reqId o =>
      simp only [fireCount]
      refine ih (step st (.resolve t reqId o)) (eventTime (.resolve t reqId o)) htail hburst ?_
      intro ft txt1 s1 hft tc htc
      rw [show step st (.resolve t reqId o) = stepResolve reqId o st from rfl,
          stepResolve_timer] at hft
      exact htimer ft txt1 s1 hft tc htc

/-- C5: debounce coalescing.  For any valid execution fragment that starts
with no pending timer and whose change events each occur within 300 ms of
the previous one, at most one encoder call is issued in the whole fragment:
every new change replaces (cancels) the previously scheduled timer, so only
a timer surviving past the last change can fire. -/
theorem debounce_coalescing (es : List PipelineEvent) (st : PipelineState) (last : Nat)
    (hv : validFrom last st es = true)
    (hburst : List.Chain' (fun a b => b < a + 300) (changeTimes es))
    (ht : st.timer = none) :
    (run st es).encoderCalls ≤ st.encoderCalls + 1 := by
  have h1 := run_encoderCalls es st last hv
  have h2 : fireCount es ≤ 1 := by
    refine burst_fire_bound es st last hv hburst ?_
    intro ft txt0 s0 hft
    rw [ht] at hft
    cases hft
  omega

/-- Witness for C5: three changes 100 and 150 ms apart, one fire, one
resolution; exactly one encoder call happens. -/
theorem debounce_coalescing_witness :
    (validFrom 0 initialPipelineState burstTrace = true ∧
     List.Chain' (fun a b => b < a + 300) (changeTimes burstTrace) ∧
     initialPipelineState.timer = none) ∧
    (run initialPipelineState burstTrace).encoderCalls ≤
      initialPipelineState.encoderCalls + 1 :=
  have hchain : List.Chain' (fun a b => b < a + 300) (changeTimes burstTrace) := by
    show List.Chain' (fun a b => b < a + 300) [0, 100, 250]
    rw [List.chain'_cons, List.chain'_cons]
    exact ⟨by omega, by omega, List.chain'_singleton 250⟩
  ⟨⟨by decide, hchain, rfl⟩,
   debounce_coalescing burstTrace initialPipelineState 0 (by decide) hchain rfl⟩

/-- C1 counterexample: in the valid execution staleTrace, the request for
text b (id 1, the most recently issued) resolves with urlB at time 620, and
the older request for text a (id 0) resolves later, at time 700; the code
applies that stale resolution, so the final displayed dataUrl is urlA, not
the latest request's urlB.  The claimed freshness guard does not exist. -/
theorem freshness_guard_counterexample :
    validFrom 0 initialPipelineState staleTrace = true ∧
    (run initialPipelineState staleTrace).nextReqId = 2 ∧
    (run initialPipelineState staleTrace).dataUrl = some ("urlA") ∧
    (run initialPipelineState staleTrace).dataUrl ≠ some ("urlB") := by
  decide

/-- C1 amended: the effect cleanup cancels only the pending debounce timer;
once a request is in flight its resolution is applied unconditionally, even
when a later-issued request is also in flight — a stale success overwrites
dataUrl and the loading flag, a stale failure overwrites the error and
clears dataUrl, and a text/settings change never removes an in-flight
request. -/
theorem stale_resolution_overwrites (st : PipelineState) (reqId : Nat)
    (r : QRCodeResult) (e : QRGenerationError) (t : Nat) (txt : String) (s0 : QRSettings)
    (hin : st.inflight.any (fun p => p.1 == reqId) = true)
    (hlater : ∃ q ∈ st.inflight, reqId < q.1) :
    (stepResolve reqId (.ok r) st).dataUrl = some r.dataUrl ∧
    (stepResolve reqId (.ok r) st).isLoading = false ∧
    (stepResolve reqId (.err e) st).error = some e.message ∧
    (stepResolve reqId (.err e) st).dataUrl = none ∧
    (stepResolve reqId (.err e) st).isLoading = false ∧
    (stepChange t txt s0 st).inflight = st.inflight := by
  refine ⟨?_, ?_, ?_, ?_, ?_, ?_⟩
  · simp [stepResolve, hin]
  · simp [stepResolve, hin]
  · simp [stepResolve, hin]
  · simp [stepResolve, hin]
  · simp [stepResolve, hin]
  · simp only [stepChange]
    split_ifs <;> rfl

/-- Witness for the amended C1: two requests in flight, the earlier one
resolves and overwrites the display. -/
theorem stale_resolution_overwrites_witness :
    (twoInflightState.inflight.any (fun p => p.1 == 0) = true ∧
     (∃ q ∈ twoInflightState.inflight, 0 < q.1)) ∧
    ((stepResolve 0 (.ok { dataUrl := ("urlA"), width := 256, height := 256 })
        twoInflightState).dataUrl = some ("urlA") ∧
     (stepResolve 0 (.ok { dataUrl := ("urlA"), width := 256, height := 256 })
        twoInflightState).isLoading = false ∧
     (stepResolve 0 (.err { message := ("boom") }) twoInflightState).error = some ("boom") ∧
     (stepResolve 0 (.err { message := ("boom") }) twoInflightState).dataUrl = none ∧
     (stepResolve 0 (.err { message := ("boom") }) twoInflightState).isLoading = false ∧
     (stepChange 5 ("c") DEFAULT_SETTINGS twoInflightState).inflight =
       twoInflightState.inflight) :=
  ⟨⟨by decide, by decide⟩,
   stale_resolution_overwrites twoInflightState 0
     { dataUrl := ("urlA"), width := 256, height := 256 } { message := ("boom") }
     5 ("c") DEFAULT_SETTINGS (by decide) (by decide)⟩

end QRCodeGen

namespace QRCodeGen

/-- Characters produced by digitChar below 10 are decimal digits. -/
theorem digitChar_digit (k : Nat) (h : k < 10) : isDigitChar (Nat.digitChar k) = true := by
  interval_cases k <;> decide

/-- Equation for natDecimal below 10. -/
theorem natDecimal_lt10 (n : Nat) (h : n < 10) : natDecimal n = [Nat.digitChar n] := by
  rw [natDecimal, if_pos h]

/-- Equation for natDecimal from 10 up. -/
theorem natDecimal_ge10 (n : Nat) (h : 10 ≤ n) :
    natDecimal n = natDecimal (n / 10) ++ [Nat.digitChar (n % 10)] := by
  rw [natDecimal, if_neg (by omega)]

/-- Every character of a decimal rendering is a digit. -/
theorem natDecimal_digits (n : Nat) : (natDecimal n).all isDigitChar = true := by
  induction n using Nat.strong_induction_on with
  | _ n ih =>
    by_cases h : n < 10
    · rw [natDecimal_lt10 n h]
      simp only [List.all_cons, List.all_nil, Bool.and_true]
      exact digitChar_digit n h
    · rw [natDecimal_ge10 n (by omega), List.all_append]
      have hdiv : n / 10 < n := Nat.div_lt_self (by omega) (by omega)
      simp only [List.all_cons, List.all_nil, Bool.and_true, Bool.and_eq_true]
      exact ⟨ih (n / 10) hdiv, digitChar_digit (n % 10) (Nat.mod_lt n (by omega))⟩

/-- One-digit length. -/
theorem natDecimal_length_lt10 (n : Nat) (h : n < 10) : (natDecimal n).length = 1 := by
  rw [natDecimal_lt10 n h]
  rfl

/-- Length recursion from 10 up. -/
theorem natDecimal_length_ge10 (n : Nat) (h : 10 ≤ n) :
    (natDecimal n).length = (natDecimal (n / 10)).length + 1 := by
  rw [natDecimal_ge10 n h]
  simp

/-- Two-digit numbers render with two characters. -/
theorem natDecimal_length_two (n : Nat) (h1 : 10 ≤ n) (h2 : n ≤ 99) :
    (natDecimal n).length = 2 := by
  rw [natDecimal_length_ge10 n h1, natDecimal_length_lt10 (n / 10) (by omega)]

/-- Four-digit numbers render with four characters. -/
theorem natDecimal_length_four (n : Nat) (h1 : 1000 ≤ n) (h2 : n ≤ 9999) :
    (natDecimal n).length = 4 := by
  rw [natDecimal_length_ge10 n (by omega),
      natDecimal_length_ge10 (n / 10) (by omega),
      natDecimal_length_ge10 (n / 10 / 10) (by omega),
      natDecimal_length_lt10 (n / 10 / 10 / 10) (by omega)]

/-- The fueled core of Nat.repr agrees with natDecimal when the fuel covers
the argument. -/
theorem toDigitsCore_eq_natDecimal (f : Nat) : ∀ (n : Nat) (ds : List Char), n < f →
    Nat.toDigitsCore 10 f n ds = natDecimal n ++ ds := by
  induction f with
  | zero =>
    intro n ds h
    exact absurd h (Nat.not_lt_zero n)
  | succ f ih =>
    intro n ds h
    simp only [Nat.toDigitsCore]
    split_ifs with h0
    · have hn : n < 10 := by omega
      have hmod : n % 10 = n := Nat.mod_eq_of_lt hn
      rw [natDecimal_lt10 n hn, hmod]
      rfl
    · have h10 : 10 ≤ n := by omega
      have hlt : n / 10 < f := by omega
      rw [ih (n / 10) (Nat.digitChar (n % 10) :: ds) hlt, natDecimal_ge10 n h10,
          List.append_assoc]
      rfl

/-- The characters of the decimal string of a natural number. -/
theorem repr_data (n : Nat) : (toString n).data = natDecimal n := by
  have h : Nat.toDigitsCore 10 (n + 1) n [] = natDecimal n ++ [] :=
    toDigitsCore_eq_natDecimal (n + 1) n [] (Nat.lt_succ_self n)
  show (Nat.toDigitsCore 10 (n + 1) n []).asString.data = natDecimal n
  rw [h, List.append_nil]
  rfl

/-- String concatenation concatenates the character lists. -/
theorem string_data_append (a b : String) : (a ++ b).data = a.data ++ b.data := rfl

/-- A padded two-digit component has exactly two characters, all digits. -/
theorem pad2_spec (n : Nat) (h : n ≤ 99) :
    (pad2 n).data.length = 2 ∧ (pad2 n).data.all isDigitChar = true := by
  by_cases h10 : n < 10
  · have hlen : (toString n).length = 1 := by
      show (toString n).data.length = 1
      rw [repr_data n, natDecimal_length_lt10 n h10]
    have hdata : (pad2 n).data = '0' :: (toString n).data := by
      rw [pad2, if_pos (by omega)]
      rfl
    constructor
    · rw [hdata]
      simp only [List.length_cons]
      have : (toString n).data.length = 1 := hlen
      omega
    · rw [hdata]
      simp only [List.all_cons, Bool.and_eq_true]
      refine ⟨by decide, ?_⟩
      rw [repr_data n]
      exact natDecimal_digits n
  · have hlen : (toString n).length = 2 := by
      show (toString n).data.length = 2
      rw [repr_data n, natDecimal_length_two n (by omega) h]
    have hdata : pad2 n = toString n := by
      rw [pad2, if_neg (by omega)]
    constructor
    · rw [hdata]
      exact hlen
    · rw [hdata, repr_data n]
      exact natDecimal_digits n

/-- For any plausible wall-clock reading, the default filename has the exact
qr-code-YYYYMMDD-HHMMSS.png shape. -/
theorem generateDefaultFilename_shape (now : JsDate) (hy1 : 1000 ≤ now.year)
    (hy2 : now.year ≤ 9999) (hm : now.monthIndex ≤ 11) (hd : now.day ≤ 31)
    (hh : now.hours ≤ 23) (hmin : now.minutes ≤ 59) (hs : now.seconds ≤ 59) :
    isDefaultFilenameShape (generateDefaultFilename now) := by
  obtain ⟨hm2, hmd⟩ := pad2_spec (now.monthIndex + 1) (by omega)
  obtain ⟨hd2, hdd⟩ := pad2_spec now.day (by omega)
  obtain ⟨hh2, hhd⟩ := pad2_spec now.hours (by omega)
  obtain ⟨hmin2, hmind⟩ := pad2_spec now.minutes (by omega)
  obtain ⟨hs2, hsd⟩ := pad2_spec now.seconds (by omega)
  have hylen : (toString now.year).data.length = 4 := by
    rw [repr_data]
    exact natDecimal_length_four now.year hy1 hy2
  have hydig : (toString now.year).data.all isDigitChar = true := by
    rw [repr_data]
    exact natDecimal_digits now.year
  refine ⟨(toString now.year).data ++ (pad2 (now.monthIndex + 1)).data ++ (pad2 now.day).data,
          (pad2 now.hours).data ++ (pad2 now.minutes).data ++ (pad2 now.seconds).data,
          ?_, ?_, ?_, ?_, ?_⟩
  · simp only [List.length_append, hylen, hm2, hd2]
  · simp only [List.length_append, hh2, hmin2, hs2]
  · simp only [List.all_append, Bool.and_eq_true]
    exact ⟨⟨hydig, hmd⟩, hdd⟩
  · simp only [List.all_append, Bool.and_eq_true]
    exact ⟨⟨hhd, hmind⟩, hsd⟩
  · simp only [generateDefaultFilename, string_data_append, List.append_assoc]

/-- C9: every input not starting with the PNG data-URL prefix is rejected
with the fixed invalid-URL error (whatever the DOM would do and whether a
filename was passed); a valid PNG data URL with no filename succeeds and the
anchor receives the default filename, which has the exact
qr-code-YYYYMMDD-HHMMSS.png shape built from the current clock; a DOM
failure is re-thrown with the fixed prefix and the cause's message, or with
Unknown error for a non-Error throw. -/
theorem download_adapter_contract (dom : DomOutcome) (now : JsDate)
    (badUrl goodUrl msg : String) (fname : Option String)
    (hbad : strStartsWith badUrl ("data:image/png;base64,") = false)
    (hgood : strStartsWith goodUrl ("data:image/png;base64,") = true)
    (hy1 : 1000 ≤ now.year) (hy2 : now.year ≤ 9999) (hm : now.monthIndex ≤ 11)
    (hd : now.day ≤ 31) (hh : now.hours ≤ 23) (hmin : now.minutes ≤ 59)
    (hs : now.seconds ≤ 59) :
    downloadQRCode dom now badUrl fname = .error ("Invalid PNG data URL provided") ∧
    downloadQRCode .ok now goodUrl none = .ok (generateDefaultFilename now) ∧
    isDefaultFilenameShape (generateDefaultFilename now) ∧
    downloadQRCode (.failsWithMessage msg) now goodUrl none =
      .error (("Failed to download QR code: ") ++ msg) ∧
    downloadQRCode .failsNonError now goodUrl none =
      .error ("Failed to download QR code: Unknown error") := by
  have hge : ¬(goodUrl = "" ∨ strStartsWith goodUrl ("data:image/png;base64,") = false) := by
    rintro (rfl | hc)
    · rw [show strStartsWith "" ("data:image/png;base64,") = false from rfl] at hgood
      cases hgood
    · rw [hgood] at hc
      cases hc
  refine ⟨?_, ?_, ?_, ?_, ?_⟩
  · have hcond : badUrl = "" ∨ strStartsWith badUrl ("data:image/png;base64,") = false :=
      Or.inr hbad
    simp [downloadQRCode, hcond]
  · simp [downloadQRCode, hge]
  · exact generateDefaultFilename_shape now hy1 hy2 hm hd hh hmin hs
  · simp [downloadQRCode, hge]
  · simp [downloadQRCode, hge]

/-- Witness for C9 at the repo test's date (2024-01-15 10:30:45), an invalid
and a valid data URL. -/
theorem download_adapter_contract_witness :
    (strStartsWith ("not-a-data-url") ("data:image/png;base64,") = false ∧
     strStartsWith ("data:image/png;base64,AAAA") ("data:image/png;base64,") = true) ∧
    (downloadQRCode .ok testDate ("not-a-data-url") none =
       .error ("Invalid PNG data URL provided") ∧
     downloadQRCode .ok testDate ("data:image/png;base64,AAAA") none =
       .ok (generateDefaultFilename testDate) ∧
     isDefaultFilenameShape (generateDefaultFilename testDate) ∧
     downloadQRCode (.failsWithMessage ("DOM error")) testDate
         ("data:image/png;base64,AAAA") none =
       .error (("Failed to download QR code: ") ++ "DOM error") ∧
     downloadQRCode .failsNonError testDate ("data:image/png;base64,AAAA") none =
       .error ("Failed to download QR code: Unknown error")) :=
  ⟨⟨by decide, by decide⟩,
   download_adapter_contract .ok testDate ("not-a-data-url")
     ("data:image/png;base64,AAAA") ("DOM error") none (by decide) (by decide)
     (by decide) (by decide) (by decide) (by decide) (by decide) (by decide) (by decide)⟩

end QRCodeGen
